import Mathlib

/-!
Verification of the capture pipeline in audio/2.0/default/StreamIn.cpp:
the ReadThread capture loop (threadLoop, readyToRun) and the StreamIn
controller lifecycle (close, prepareForReading), shallowly embedded.
External inputs (observed event-flag bits, device read results, queue and
event-flag construction outcomes) are supplied as per-call oracle values;
queue contents evolve concretely.
-/

namespace StreamInHAL

/-- Result codes. Modelled from the spec: the `Result` enum is declared in the
repository's types.hal, which is not under src/; the spec's error taxonomy lists
OK, INVALID_STATE, INVALID_ARGUMENTS, NOT_SUPPORTED plus device-mapped kinds. -/
inductive Result where
  | OK
  | NOT_INITIALIZED
  | INVALID_ARGUMENTS
  | INVALID_STATE
  | NOT_SUPPORTED
deriving DecidableEq, Repr

/-- Thread priority selector. Modelled from the spec: the enum is declared in the
repository's .hal files, not under src/; the spec gives {NORMAL, URGENT real-time}. -/
inductive ThreadPriority where
  | NORMAL
  | URGENT
deriving DecidableEq, Repr

/-- Modelled from the spec: MessageQueueFlagBits is declared in the repository's
types.hal, not under src/; the event-flag word has two defined bits. -/
def NOT_EMPTY : Nat := 1

/-- Second event-flag bit; see `NOT_EMPTY`. -/
def NOT_FULL : Nat := 2

/-- IStreamIn::ReadStatus record: { retval, read } (StreamIn.cpp line 103). -/
structure ReadStatus where
  retval : Result
  read : Nat
deriving DecidableEq, Repr

/-- The data message queue: a fixed-capacity byte queue (StreamIn::DataMQ,
an FMQ of uint8_t); `contents` are the unread bytes. -/
structure DataMQ where
  capacity : Nat
  contents : List Nat
deriving DecidableEq, Repr

/-- FMQ availableToWrite: free capacity in bytes. -/
def DataMQ.availableToWrite (q : DataMQ) : Nat :=
  q.capacity - q.contents.length

/-- FMQ write: all-or-nothing; fails (writing nothing) when the buffer does not
fit into the currently available space. -/
def DataMQ.write (q : DataMQ) (buf : List Nat) : DataMQ × Bool :=
  if buf.length ≤ q.availableToWrite then
    ({ q with contents := q.contents ++ buf }, true)
  else
    (q, false)

/-- The status message queue (StreamIn::StatusMQ, an FMQ of ReadStatus records);
depth 1 in this program. -/
structure StatusMQ where
  capacity : Nat
  contents : List ReadStatus
deriving DecidableEq, Repr

/-- FMQ write of one status record: fails when the queue is full. -/
def StatusMQ.write (q : StatusMQ) (s : ReadStatus) : StatusMQ × Bool :=
  if q.contents.length + 1 ≤ q.capacity then
    ({ q with contents := q.contents ++ [s] }, true)
  else
    (q, false)

/-- Modelled from the spec: `Stream::analyzeStatus` lives in Stream.cpp, not under
src/. The spec says negative device status codes are mapped to device-reported
error kinds (never OK); we map a few errno values and default the rest. -/
def analyzeStatus (status : Int) : Result :=
  if status = 0 then Result.OK
  else if status = -38 then Result.NOT_SUPPORTED
  else if status = -19 then Result.NOT_INITIALIZED
  else if status = -61 then Result.INVALID_STATE
  else Result.INVALID_ARGUMENTS

/-- Observable actions of one capture-loop iteration, in program order. -/
inductive Event where
  | waitEv (mask observed : Nat)
  | devRead (maxBytes : Nat)
  | dataWrite (len : Nat) (ok : Bool)
  | statusWrite (st : ReadStatus) (ok : Bool)
  | wake (mask : Nat)
deriving DecidableEq, Repr

/-- Per-iteration oracle: the bits observed by the event-flag wait, the device
read return value (ssize_t), and the bytes the device deposited in mBuffer. -/
structure IterInput where
  efState : Nat
  readResult : Int
  readData : List Nat
deriving DecidableEq, Repr

/-- The queue state owned by one capture session. -/
structure LoopState where
  dataMQ : DataMQ
  statusMQ : StatusMQ
deriving DecidableEq, Repr

/-- One iteration of the body of ReadThread::threadLoop (StreamIn.cpp lines
84-107): wait on NOT_FULL; if not observed, continue; otherwise read
availableToWrite bytes from the device; on success write them to the data queue
and set status {OK, readResult}; on failure set status {analyzeStatus, 0}; write
the status record; wake NOT_EMPTY. Returns the new queue state and the trace. -/
def readIteration (st : LoopState) (inp : IterInput) : LoopState × List Event :=
  if inp.efState &&& NOT_FULL = 0 then
    (st, [Event.waitEv NOT_FULL inp.efState])
  else if 0 ≤ inp.readResult then
    let n := inp.readResult.toNat
    let dw := st.dataMQ.write (inp.readData.take n)
    let sw := st.statusMQ.write ⟨Result.OK, n⟩
    (⟨dw.1, sw.1⟩,
     [Event.waitEv NOT_FULL inp.efState,
      Event.devRead st.dataMQ.availableToWrite,
      Event.dataWrite n dw.2,
      Event.statusWrite ⟨Result.OK, n⟩ sw.2,
      Event.wake NOT_EMPTY])
  else
    let sw := st.statusMQ.write ⟨analyzeStatus inp.readResult, 0⟩
    (⟨st.dataMQ, sw.1⟩,
     [Event.waitEv NOT_FULL inp.efState,
      Event.devRead st.dataMQ.availableToWrite,
      Event.statusWrite ⟨analyzeStatus inp.readResult, 0⟩ sw.2,
      Event.wake NOT_EMPTY])

/-- ReadThread::threadLoop (StreamIn.cpp lines 80-111): while the stop flag
reads false, run one iteration. Each list element supplies the stop-flag value
read at the top of that iteration and the iteration's oracle; an empty list
means the modelled environment is exhausted. -/
def threadLoop (st : LoopState) : List (Bool × IterInput) → LoopState × List Event
  | [] => (st, [])
  | step :: rest =>
    if step.1 then
      (st, [])
    else
      let it := readIteration st step.2
      let cont := threadLoop it.1 rest
      (cont.1, it.2 ++ cont.2)

/-- ReadThread::readyToRun (StreamIn.cpp lines 70-78): when the priority is not
NORMAL, request elevation (failure only logged); always returns status_t OK (0).
`requestPriorityErr` is the oracle outcome of the requestPriority call. -/
def readyToRun (pr : ThreadPriority) (requestPriorityErr : Int) : Int × List (ThreadPriority × Int) :=
  if pr ≠ ThreadPriority.NORMAL then
    (0, [(pr, requestPriorityErr)])
  else
    (0, [])

/-- The StreamIn controller members relevant to session lifecycle
(StreamIn.h / StreamIn.cpp): mIsClosed, mDataMQ, mStatusMQ, mEfGroup,
mStopReadThread, mReadThread (modelled as presence). -/
structure StreamState where
  isClosed : Bool
  dataMQ : Option DataMQ
  statusMQ : Option StatusMQ
  efGroup : Bool
  stopReadThread : Bool
  readThread : Bool
deriving DecidableEq, Repr

/-- StreamIn constructor state (StreamIn.cpp lines 115-120). -/
def initialStream : StreamState :=
  ⟨false, none, none, false, false, false⟩

/-- Observable actions of StreamIn::close, in program order. -/
inductive CloseAction where
  | setStopFlag
  | joinReadThread
  | deleteEventFlag
  | closeInputStream
deriving DecidableEq, Repr

/-- Outcome of StreamIn::close. -/
structure CloseOut where
  state : StreamState
  retval : Result
  actions : List CloseAction
deriving DecidableEq, Repr

/-- StreamIn::close (StreamIn.cpp lines 238-252): INVALID_STATE when already
closed; otherwise mark closed, then (when a read thread exists) set the stop
flag and join it, (when the event flag exists) delete it, close the device
input stream, and return OK. -/
def close (s : StreamState) : CloseOut :=
  if s.isClosed then
    ⟨s, Result.INVALID_STATE, []⟩
  else
    let s1 := { s with isClosed := true }
    let p2 :=
      if s1.readThread then
        ({ s1 with stopReadThread := true },
         [CloseAction.setStopFlag, CloseAction.joinReadThread])
      else
        (s1, ([] : List CloseAction))
    let p3 :=
      if p2.1.efGroup then
        ({ p2.1 with efGroup := false }, [CloseAction.deleteEventFlag])
      else
        (p2.1, ([] : List CloseAction))
    ⟨p3.1, Result.OK, p2.2 ++ p3.2 ++ [CloseAction.closeInputStream]⟩

/-- Oracle outcomes for the fallible steps of prepareForReading: validity of the
two freshly constructed queues, success of EventFlag::createEventFlag (status OK
and a non-null flag), and success of launching the reader thread. -/
structure PrepareEnv where
  dataMQValid : Bool
  statusMQValid : Bool
  efCreateOk : Bool
  threadRunOk : Bool
deriving DecidableEq, Repr

/-- Outcome of StreamIn::prepareForReading: the new controller state, the result
code, and the two queue descriptors passed to the callback (`none` models the
empty `DataMQ::Descriptor()` / `StatusMQ::Descriptor()`; `some c` a real
descriptor of a queue of capacity c). -/
structure PrepareOut where
  state : StreamState
  retval : Result
  dataDesc : Option Nat
  statusDesc : Option Nat
deriving DecidableEq, Repr

/-- uint32_t modulus for the frameSize * framesCount multiplication. -/
def U32 : Nat := 2 ^ 32

/-- StreamIn::prepareForReading (StreamIn.cpp lines 270-320): INVALID_STATE with
empty descriptors when mDataMQ is already set; otherwise construct the two
queues (INVALID_ARGUMENTS when either is invalid); create the event flag from
the data queue's word, storing it into mEfGroup (INVALID_ARGUMENTS on failure);
construct and run the reader thread (INVALID_ARGUMENTS on failure); on success
move the queues into mDataMQ / mStatusMQ and return OK with their descriptors. -/
def prepareForReading (s : StreamState) (frameSize framesCount : Nat)
    (env : PrepareEnv) : PrepareOut :=
  if s.dataMQ.isSome then
    ⟨s, Result.INVALID_STATE, none, none⟩
  else
    let dataCap := (frameSize * framesCount) % U32
    if ¬ env.dataMQValid ∨ ¬ env.statusMQValid then
      ⟨s, Result.INVALID_ARGUMENTS, none, none⟩
    else
      let s1 := { s with efGroup := env.efCreateOk }
      if ¬ env.efCreateOk then
        ⟨s1, Result.INVALID_ARGUMENTS, none, none⟩
      else
        let s2 := { s1 with readThread := true }
        if ¬ env.threadRunOk then
          ⟨s2, Result.INVALID_ARGUMENTS, none, none⟩
        else
          ⟨{ s2 with dataMQ := some ⟨dataCap, []⟩, statusMQ := some ⟨1, []⟩ },
           Result.OK, some dataCap, some 1⟩

/-- Number of device reads occurring in a trace. -/
def countDevReads : List Event → Nat
  | [] => 0
  | Event.devRead _ :: es => countDevReads es + 1
  | _ :: es => countDevReads es

/-- Claim C1: in a capture-loop iteration where the device read returns n >= 0
bytes (necessarily at most the requested availableToWrite, with the buffer
holding at least n device bytes) and the status queue has a free slot, the loop
appends exactly those n bytes to the data queue, then appends exactly one status
record {OK, n} to the status queue, and then wakes NOT_EMPTY, in that order. -/
theorem c1_read_success_roundtrip (st : LoopState) (inp : IterInput)
    (hef : inp.efState &&& NOT_FULL ≠ 0)
    (hr : 0 ≤ inp.readResult)
    (hn : inp.readResult.toNat ≤ st.dataMQ.availableToWrite)
    (hbuf : inp.readResult.toNat ≤ inp.readData.length)
    (hsq : st.statusMQ.contents.length < st.statusMQ.capacity) :
    (readIteration st inp).1.dataMQ.contents
        = st.dataMQ.contents ++ inp.readData.take inp.readResult.toNat
    ∧ (inp.readData.take inp.readResult.toNat).length = inp.readResult.toNat
    ∧ (readIteration st inp).1.statusMQ.contents
        = st.statusMQ.contents ++ [⟨Result.OK, inp.readResult.toNat⟩]
    ∧ (readIteration st inp).2
        = [Event.waitEv NOT_FULL inp.efState,
           Event.devRead st.dataMQ.availableToWrite,
           Event.dataWrite inp.readResult.toNat true,
           Event.statusWrite ⟨Result.OK, inp.readResult.toNat⟩ true,
           Event.wake NOT_EMPTY] := by
  have hlen : (inp.readData.take inp.readResult.toNat).length
      = inp.readResult.toNat := by
    simp [List.length_take]
    omega
  have hdw : st.dataMQ.write (inp.readData.take inp.readResult.toNat)
      = ({ st.dataMQ with
            contents := st.dataMQ.contents ++ inp.readData.take inp.readResult.toNat },
         true) := by
    unfold DataMQ.write
    rw [if_pos (by rw [hlen]; exact hn)]
  have hsw : st.statusMQ.write ⟨Result.OK, inp.readResult.toNat⟩
      = ({ st.statusMQ with
            contents := st.statusMQ.contents ++ [⟨Result.OK, inp.readResult.toNat⟩] },
         true) := by
    unfold StatusMQ.write
    rw [if_pos (by omega)]
  unfold readIteration
  rw [if_neg hef, if_pos hr]
  simp only [hdw, hsw]
  simp [hlen]

/-- Witness for C1 at a concrete iteration: data queue of capacity 8 initially
empty, empty status queue of depth 1, wait observing NOT_FULL, device read
returning 3 bytes [10, 11, 12]. -/
theorem c1_read_success_roundtrip_witness :
    (readIteration ⟨⟨8, []⟩, ⟨1, []⟩⟩ ⟨2, 3, [10, 11, 12]⟩).1.dataMQ.contents
        = [] ++ [10, 11, 12].take (3 : Int).toNat
    ∧ ([10, 11, 12].take (3 : Int).toNat).length = (3 : Int).toNat
    ∧ (readIteration ⟨⟨8, []⟩, ⟨1, []⟩⟩ ⟨2, 3, [10, 11, 12]⟩).1.statusMQ.contents
        = [] ++ [⟨Result.OK, (3 : Int).toNat⟩]
    ∧ (readIteration ⟨⟨8, []⟩, ⟨1, []⟩⟩ ⟨2, 3, [10, 11, 12]⟩).2
        = [Event.waitEv NOT_FULL 2,
           Event.devRead (DataMQ.availableToWrite ⟨8, []⟩),
           Event.dataWrite (3 : Int).toNat true,
           Event.statusWrite ⟨Result.OK, (3 : Int).toNat⟩ true,
           Event.wake NOT_EMPTY] :=
  c1_read_success_roundtrip ⟨⟨8, []⟩, ⟨1, []⟩⟩ ⟨2, 3, [10, 11, 12]⟩
    (by decide) (by decide) (by decide) (by decide) (by decide)

/-- Claim C3: in a capture-loop iteration where the device read returns a
negative code (status queue having a free slot), no bytes are written to the
data queue and exactly one status record {mapped-error-kind, 0} is written. -/
theorem c3_read_failure_status_only (st : LoopState) (inp : IterInput)
    (hef : inp.efState &&& NOT_FULL ≠ 0)
    (hr : inp.readResult < 0)
    (hsq : st.statusMQ.contents.length < st.statusMQ.capacity) :
    (readIteration st inp).1.dataMQ = st.dataMQ
    ∧ (readIteration st inp).1.statusMQ.contents
        = st.statusMQ.contents ++ [⟨analyzeStatus inp.readResult, 0⟩]
    ∧ analyzeStatus inp.readResult ≠ Result.OK
    ∧ (readIteration st inp).2
        = [Event.waitEv NOT_FULL inp.efState,
           Event.devRead st.dataMQ.availableToWrite,
           Event.statusWrite ⟨analyzeStatus inp.readResult, 0⟩ true,
           Event.wake NOT_EMPTY] := by
  have hne : analyzeStatus inp.readResult ≠ Result.OK := by
    unfold analyzeStatus
    rw [if_neg (by omega : ¬ inp.readResult = 0)]
    split
    · decide
    · split
      · decide
      · split <;> decide
  have hsw : st.statusMQ.write ⟨analyzeStatus inp.readResult, 0⟩
      = ({ st.statusMQ with
            contents := st.statusMQ.contents ++ [⟨analyzeStatus inp.readResult, 0⟩] },
         true) := by
    unfold StatusMQ.write
    rw [if_pos (by omega)]
  unfold readIteration
  rw [if_neg hef, if_neg (by omega : ¬ (0 : Int) ≤ inp.readResult)]
  simp only [hsw]
  simp [hne]

/-- Witness for C3 at a concrete iteration: device read returning -5. -/
theorem c3_read_failure_status_only_witness :
    (readIteration ⟨⟨8, []⟩, ⟨1, []⟩⟩ ⟨2, -5, []⟩).1.dataMQ = ⟨8, []⟩
    ∧ (readIteration ⟨⟨8, []⟩, ⟨1, []⟩⟩ ⟨2, -5, []⟩).1.statusMQ.contents
        = [] ++ [⟨analyzeStatus (-5), 0⟩]
    ∧ analyzeStatus (-5) ≠ Result.OK
    ∧ (readIteration ⟨⟨8, []⟩, ⟨1, []⟩⟩ ⟨2, -5, []⟩).2
        = [Event.waitEv NOT_FULL 2,
           Event.devRead (DataMQ.availableToWrite ⟨8, []⟩),
           Event.statusWrite ⟨analyzeStatus (-5), 0⟩ true,
           Event.wake NOT_EMPTY] :=
  c3_read_failure_status_only ⟨⟨8, []⟩, ⟨1, []⟩⟩ ⟨2, -5, []⟩
    (by decide) (by decide) (by decide)

/-- Claim C4: whenever a capture-loop iteration performs a device read, the
number of bytes requested equals availableToWrite() of the data queue at that
iteration, and hence never exceeds the currently available space. -/
theorem c4_read_request_equals_available (st : LoopState) (inp : IterInput)
    (m : Nat) (h : Event.devRead m ∈ (readIteration st inp).2) :
    m = st.dataMQ.availableToWrite ∧ m ≤ st.dataMQ.availableToWrite := by
  have hm : m = st.dataMQ.availableToWrite := by
    unfold readIteration at h
    split at h
    · simp at h
    · split at h <;> simp at h <;> exact h
  exact ⟨hm, hm ▸ Nat.le_refl _⟩

/-- Witness for C4: the concrete iteration of c1's witness requests exactly the
8 free bytes of the data queue. -/
theorem c4_read_request_equals_available_witness :
    (8 : Nat) = (DataMQ.availableToWrite ⟨8, []⟩)
    ∧ (8 : Nat) ≤ (DataMQ.availableToWrite ⟨8, []⟩) :=
  c4_read_request_equals_available ⟨⟨8, []⟩, ⟨1, []⟩⟩ ⟨2, 3, [10, 11, 12]⟩ 8
    (by decide)

/-- Claim C9: in a capture-loop iteration where the device read succeeds with n
bytes but the data-queue write fails for lack of space, the data queue is left
unchanged (the data is dropped) while a status record {OK, n} is still written
and NOT_EMPTY is still woken: the consumer observes a successful status for
dropped data. -/
theorem c9_ok_status_for_dropped_data (st : LoopState) (inp : IterInput)
    (hef : inp.efState &&& NOT_FULL ≠ 0)
    (hr : 0 ≤ inp.readResult)
    (hdrop : st.dataMQ.availableToWrite
        < (inp.readData.take inp.readResult.toNat).length)
    (hsq : st.statusMQ.contents.length < st.statusMQ.capacity) :
    (readIteration st inp).1.dataMQ = st.dataMQ
    ∧ (readIteration st inp).1.statusMQ.contents
        = st.statusMQ.contents ++ [⟨Result.OK, inp.readResult.toNat⟩]
    ∧ (readIteration st inp).2
        = [Event.waitEv NOT_FULL inp.efState,
           Event.devRead st.dataMQ.availableToWrite,
           Event.dataWrite inp.readResult.toNat false,
           Event.statusWrite ⟨Result.OK, inp.readResult.toNat⟩ true,
           Event.wake NOT_EMPTY] := by
  have hdw : st.dataMQ.write (inp.readData.take inp.readResult.toNat)
      = (st.dataMQ, false) := by
    unfold DataMQ.write
    rw [if_neg (by omega)]
  have hsw : st.statusMQ.write ⟨Result.OK, inp.readResult.toNat⟩
      = ({ st.statusMQ with
            contents := st.statusMQ.contents ++ [⟨Result.OK, inp.readResult.toNat⟩] },
         true) := by
    unfold StatusMQ.write
    rw [if_pos (by omega)]
  unfold readIteration
  rw [if_neg hef, if_pos hr]
  simp only [hdw, hsw]
  simp

/-- Witness for C9: a full data queue (capacity 2, two unread bytes) and a
device read returning 1 byte. -/
theorem c9_ok_status_for_dropped_data_witness :
    (readIteration ⟨⟨2, [7, 7]⟩, ⟨1, []⟩⟩ ⟨2, 1, [5]⟩).1.dataMQ = ⟨2, [7, 7]⟩
    ∧ (readIteration ⟨⟨2, [7, 7]⟩, ⟨1, []⟩⟩ ⟨2, 1, [5]⟩).1.statusMQ.contents
        = [] ++ [⟨Result.OK, (1 : Int).toNat⟩]
    ∧ (readIteration ⟨⟨2, [7, 7]⟩, ⟨1, []⟩⟩ ⟨2, 1, [5]⟩).2
        = [Event.waitEv NOT_FULL 2,
           Event.devRead (DataMQ.availableToWrite ⟨2, [7, 7]⟩),
           Event.dataWrite (1 : Int).toNat false,
           Event.statusWrite ⟨Result.OK, (1 : Int).toNat⟩ true,
           Event.wake NOT_EMPTY] :=
  c9_ok_status_for_dropped_data ⟨⟨2, [7, 7]⟩, ⟨1, []⟩⟩ ⟨2, 1, [5]⟩
    (by decide) (by decide) (by decide) (by decide)

/-- Every iteration's trace starts with its event-flag wait. -/
theorem readIteration_starts_with_wait (st : LoopState) (inp : IterInput) :
    ∃ tl, (readIteration st inp).2 = Event.waitEv NOT_FULL inp.efState :: tl := by
  unfold readIteration
  split
  · exact ⟨_, rfl⟩
  · split
    · exact ⟨_, rfl⟩
    · exact ⟨_, rfl⟩

/-- Counterexample to claim C2 as stated: the stop flag is read false at the
top of iteration 0 and true at the top of iteration 1, i.e. it was set while
the thread was blocked in iteration 0's event-flag wait; that wait was woken
with NOT_FULL observed, and the thread then performs a device read after the
flag was set (the trace after the wait contains a devRead event). -/
theorem c2_counterexample :
    ((threadLoop ⟨⟨8, []⟩, ⟨1, []⟩⟩
        [(false, ⟨2, 0, []⟩), (true, ⟨0, 0, []⟩)]).2).drop 1
      = [Event.devRead 8, Event.dataWrite 0 true,
         Event.statusWrite ⟨Result.OK, 0⟩ true, Event.wake NOT_EMPTY]
    ∧ Event.devRead 8 ∈
        ((threadLoop ⟨⟨8, []⟩, ⟨1, []⟩⟩
            [(false, ⟨2, 0, []⟩), (true, ⟨0, 0, []⟩)]).2).drop 1 := by
  decide

/-- Claim C2 (amended): if the stop flag is set while the thread is in
iteration k's event-flag wait (read false at iteration k's top, true at
iteration k+1's top), the thread performs nothing beyond the remainder of
iteration k and exits at the top of iteration k+1; at most one further device
read occurs, and none at all when the wait returned without NOT_FULL. -/
theorem c2_amended_stop_exit (st : LoopState) (inp next : IterInput)
    (rest : List (Bool × IterInput)) :
    (threadLoop st ((false, inp) :: (true, next) :: rest)).2
        = (readIteration st inp).2
    ∧ countDevReads (readIteration st inp).2 ≤ 1
    ∧ (inp.efState &&& NOT_FULL = 0 →
        (readIteration st inp).2 = [Event.waitEv NOT_FULL inp.efState]) := by
  refine ⟨?_, ?_, ?_⟩
  · simp [threadLoop]
  · unfold readIteration
    split
    · simp [countDevReads]
    · split <;> simp [countDevReads]
  · intro h
    unfold readIteration
    rw [if_pos h]

/-- Witness for C2 (amended) at the concrete inputs of the counterexample. -/
theorem c2_amended_stop_exit_witness :
    (threadLoop ⟨⟨8, []⟩, ⟨1, []⟩⟩
        [(false, ⟨2, 0, []⟩), (true, ⟨0, 0, []⟩)]).2
      = (readIteration ⟨⟨8, []⟩, ⟨1, []⟩⟩ ⟨2, 0, []⟩).2
    ∧ countDevReads (readIteration ⟨⟨8, []⟩, ⟨1, []⟩⟩ ⟨2, 0, []⟩).2 ≤ 1
    ∧ ((2 : Nat) &&& NOT_FULL = 0 →
        (readIteration ⟨⟨8, []⟩, ⟨1, []⟩⟩ ⟨2, 0, []⟩).2
          = [Event.waitEv NOT_FULL 2]) :=
  c2_amended_stop_exit ⟨⟨8, []⟩, ⟨1, []⟩⟩ ⟨2, 0, []⟩ ⟨0, 0, []⟩ []

/-- Claim C8: non-fatal faults never abort their surrounding operation. In an
iteration where both the data-queue write and the status-queue write fail, the
iteration still completes in full (both failed writes appear in the trace, the
wake still follows) and the loop still proceeds to the next iteration, whose
wait runs; and a failed priority-elevation request still lets readyToRun return
status OK (0), so the thread proceeds at default priority. -/
theorem c8_nonfatal_faults_do_not_abort (st : LoopState) (inp next : IterInput)
    (rest : List (Bool × IterInput))
    (hef : inp.efState &&& NOT_FULL ≠ 0)
    (hr : 0 ≤ inp.readResult)
    (hdrop : st.dataMQ.availableToWrite
        < (inp.readData.take inp.readResult.toNat).length)
    (hsfull : st.statusMQ.capacity ≤ st.statusMQ.contents.length) :
    (readIteration st inp).2
      = [Event.waitEv NOT_FULL inp.efState,
         Event.devRead st.dataMQ.availableToWrite,
         Event.dataWrite inp.readResult.toNat false,
         Event.statusWrite ⟨Result.OK, inp.readResult.toNat⟩ false,
         Event.wake NOT_EMPTY]
    ∧ (threadLoop st ((false, inp) :: (false, next) :: rest)).2
        = (readIteration st inp).2
          ++ (threadLoop (readIteration st inp).1 ((false, next) :: rest)).2
    ∧ ((threadLoop (readIteration st inp).1 ((false, next) :: rest)).2).head?
        = some (Event.waitEv NOT_FULL next.efState)
    ∧ (∀ pr err, (readyToRun pr err).1 = 0) := by
  have hdw : st.dataMQ.write (inp.readData.take inp.readResult.toNat)
      = (st.dataMQ, false) := by
    unfold DataMQ.write
    rw [if_neg (by omega)]
  have hsw : st.statusMQ.write ⟨Result.OK, inp.readResult.toNat⟩
      = (st.statusMQ, false) := by
    unfold StatusMQ.write
    rw [if_neg (by omega)]
  refine ⟨?_, ?_, ?_, ?_⟩
  · unfold readIteration
    rw [if_neg hef, if_pos hr]
    simp only [hdw, hsw]
  · simp [threadLoop]
  · obtain ⟨tl, htl⟩ :=
      readIteration_starts_with_wait (readIteration st inp).1 next
    simp [threadLoop, htl]
  · intro pr err
    unfold readyToRun
    split <;> rfl

/-- Witness for C8: data queue full (capacity 2, two unread bytes), status
queue full (depth 1, one unconsumed record), device read returning 1 byte,
URGENT priority elevation failing with error -1. -/
theorem c8_nonfatal_faults_do_not_abort_witness :
    (readIteration ⟨⟨2, [7, 7]⟩, ⟨1, [⟨Result.OK, 9⟩]⟩⟩ ⟨2, 1, [5]⟩).2
      = [Event.waitEv NOT_FULL 2,
         Event.devRead (DataMQ.availableToWrite ⟨2, [7, 7]⟩),
         Event.dataWrite (1 : Int).toNat false,
         Event.statusWrite ⟨Result.OK, (1 : Int).toNat⟩ false,
         Event.wake NOT_EMPTY]
    ∧ (threadLoop ⟨⟨2, [7, 7]⟩, ⟨1, [⟨Result.OK, 9⟩]⟩⟩
          [(false, ⟨2, 1, [5]⟩), (false, ⟨2, 1, [5]⟩)]).2
        = (readIteration ⟨⟨2, [7, 7]⟩, ⟨1, [⟨Result.OK, 9⟩]⟩⟩ ⟨2, 1, [5]⟩).2
          ++ (threadLoop
                (readIteration ⟨⟨2, [7, 7]⟩, ⟨1, [⟨Result.OK, 9⟩]⟩⟩ ⟨2, 1, [5]⟩).1
                [(false, ⟨2, 1, [5]⟩)]).2
    ∧ ((threadLoop
          (readIteration ⟨⟨2, [7, 7]⟩, ⟨1, [⟨Result.OK, 9⟩]⟩⟩ ⟨2, 1, [5]⟩).1
          [(false, ⟨2, 1, [5]⟩)]).2).head?
        = some (Event.waitEv NOT_FULL 2)
    ∧ (∀ pr err, (readyToRun pr err).1 = 0) :=
  c8_nonfatal_faults_do_not_abort ⟨⟨2, [7, 7]⟩, ⟨1, [⟨Result.OK, 9⟩]⟩⟩
    ⟨2, 1, [5]⟩ ⟨2, 1, [5]⟩ [] (by decide) (by decide) (by decide) (by decide)

/-- Claim C5: after a successful session setup, a second prepareForReading call
returns INVALID_STATE with empty descriptors and leaves the stream state (the
established session's queues, event flag and thread) unchanged. -/
theorem c5_second_prepare_invalid_state (s : StreamState)
    (fs fc fs2 fc2 : Nat) (env env2 : PrepareEnv)
    (h : (prepareForReading s fs fc env).retval = Result.OK) :
    (prepareForReading (prepareForReading s fs fc env).state fs2 fc2 env2).retval
        = Result.INVALID_STATE
    ∧ (prepareForReading (prepareForReading s fs fc env).state fs2 fc2 env2).state
        = (prepareForReading s fs fc env).state
    ∧ (prepareForReading (prepareForReading s fs fc env).state fs2 fc2 env2).dataDesc
        = none
    ∧ (prepareForReading (prepareForReading s fs fc env).state fs2 fc2 env2).statusDesc
        = none := by
  have hsome : ((prepareForReading s fs fc env).state).dataMQ.isSome := by
    revert h
    unfold prepareForReading
    split_ifs <;> simp
  obtain ⟨s1, hs1⟩ : ∃ t, (prepareForReading s fs fc env).state = t := ⟨_, rfl⟩
  rw [hs1] at hsome ⊢
  unfold prepareForReading
  simp [hsome]

/-- Witness for C5: a fresh stream, frameSize 4, framesCount 2, all fallible
steps succeeding on the first call. -/
theorem c5_second_prepare_invalid_state_witness :
    (prepareForReading
        (prepareForReading initialStream 4 2 ⟨true, true, true, true⟩).state
        4 2 ⟨true, true, true, true⟩).retval = Result.INVALID_STATE
    ∧ (prepareForReading
        (prepareForReading initialStream 4 2 ⟨true, true, true, true⟩).state
        4 2 ⟨true, true, true, true⟩).state
        = (prepareForReading initialStream 4 2 ⟨true, true, true, true⟩).state
    ∧ (prepareForReading
        (prepareForReading initialStream 4 2 ⟨true, true, true, true⟩).state
        4 2 ⟨true, true, true, true⟩).dataDesc = none
    ∧ (prepareForReading
        (prepareForReading initialStream 4 2 ⟨true, true, true, true⟩).state
        4 2 ⟨true, true, true, true⟩).statusDesc = none :=
  c5_second_prepare_invalid_state initialStream 4 2 4 2
    ⟨true, true, true, true⟩ ⟨true, true, true, true⟩ (by decide)

/-- Claim C6: on a stream with an established session (read thread and event
flag present) that is not yet closed, the first close returns OK and performs,
in order: set the stop flag, join the read thread, delete the event flag, close
the device input stream; and any close on an already-closed stream returns
INVALID_STATE, changes nothing and performs no action. -/
theorem c6_close_once_then_invalid_state (s : StreamState)
    (hopen : s.isClosed = false)
    (hthr : s.readThread = true)
    (hef : s.efGroup = true) :
    (close s).retval = Result.OK
    ∧ (close s).actions
        = [CloseAction.setStopFlag, CloseAction.joinReadThread,
           CloseAction.deleteEventFlag, CloseAction.closeInputStream]
    ∧ (close s).state.isClosed = true
    ∧ (close s).state.stopReadThread = true
    ∧ (close s).state.efGroup = false
    ∧ ∀ s' : StreamState, s'.isClosed = true →
        close s' = ⟨s', Result.INVALID_STATE, []⟩ := by
  have h6 : ∀ s' : StreamState, s'.isClosed = true →
      close s' = ⟨s', Result.INVALID_STATE, []⟩ := by
    intro s' h'
    unfold close
    rw [if_pos h']
  refine ⟨?_, ?_, ?_, ?_, ?_, h6⟩ <;> simp [close, hopen, hthr, hef]

/-- Witness for C6: a concrete open stream with a live session; the second
close (on the state after the first) returns INVALID_STATE and does nothing. -/
theorem c6_close_once_then_invalid_state_witness :
    (close ⟨false, none, none, true, false, true⟩).retval = Result.OK
    ∧ (close ⟨false, none, none, true, false, true⟩).actions
        = [CloseAction.setStopFlag, CloseAction.joinReadThread,
           CloseAction.deleteEventFlag, CloseAction.closeInputStream]
    ∧ (close ⟨false, none, none, true, false, true⟩).state.isClosed = true
    ∧ (close ⟨false, none, none, true, false, true⟩).state.stopReadThread = true
    ∧ (close ⟨false, none, none, true, false, true⟩).state.efGroup = false
    ∧ close (close ⟨false, none, none, true, false, true⟩).state
        = ⟨(close ⟨false, none, none, true, false, true⟩).state,
           Result.INVALID_STATE, []⟩ :=
  ⟨(c6_close_once_then_invalid_state ⟨false, none, none, true, false, true⟩
      (by decide) (by decide) (by decide)).1,
   (c6_close_once_then_invalid_state ⟨false, none, none, true, false, true⟩
      (by decide) (by decide) (by decide)).2.1,
   (c6_close_once_then_invalid_state ⟨false, none, none, true, false, true⟩
      (by decide) (by decide) (by decide)).2.2.1,
   (c6_close_once_then_invalid_state ⟨false, none, none, true, false, true⟩
      (by decide) (by decide) (by decide)).2.2.2.1,
   (c6_close_once_then_invalid_state ⟨false, none, none, true, false, true⟩
      (by decide) (by decide) (by decide)).2.2.2.2.1,
   (c6_close_once_then_invalid_state ⟨false, none, none, true, false, true⟩
      (by decide) (by decide) (by decide)).2.2.2.2.2
     (close ⟨false, none, none, true, false, true⟩).state (by decide)⟩

/-- Claim C7: a session-setup call on a stream with no existing session returns
INVALID_ARGUMENTS with empty descriptors when either queue fails to construct
or when the event flag cannot be created from the data queue's wake-word. -/
theorem c7_prepare_failure_invalid_arguments (s : StreamState) (fs fc : Nat)
    (env : PrepareEnv)
    (hno : s.dataMQ = none)
    (hfail : env.dataMQValid = false ∨ env.statusMQValid = false
        ∨ env.efCreateOk = false) :
    (prepareForReading s fs fc env).retval = Result.INVALID_ARGUMENTS
    ∧ (prepareForReading s fs fc env).dataDesc = none
    ∧ (prepareForReading s fs fc env).statusDesc = none := by
  unfold prepareForReading
  split_ifs <;> simp_all

/-- Witness for C7: a fresh stream whose event-flag creation fails. -/
theorem c7_prepare_failure_invalid_arguments_witness :
    (prepareForReading initialStream 4 2 ⟨true, true, false, true⟩).retval
        = Result.INVALID_ARGUMENTS
    ∧ (prepareForReading initialStream 4 2 ⟨true, true, false, true⟩).dataDesc
        = none
    ∧ (prepareForReading initialStream 4 2 ⟨true, true, false, true⟩).statusDesc
        = none :=
  c7_prepare_failure_invalid_arguments initialStream 4 2
    ⟨true, true, false, true⟩ (by decide) (by decide)

/-- Claim C10: every failing prepareForReading call on a stream with no session
leaves the mDataMQ and mStatusMQ members unset, so the stream is not considered
to have a session and a later session-setup call is never rejected with
INVALID_STATE. -/
theorem c10_failed_prepare_leaves_queues_unset (s : StreamState) (fs fc : Nat)
    (env : PrepareEnv)
    (hd : s.dataMQ = none)
    (hs : s.statusMQ = none)
    (hfail : (prepareForReading s fs fc env).retval ≠ Result.OK) :
    (prepareForReading s fs fc env).state.dataMQ = none
    ∧ (prepareForReading s fs fc env).state.statusMQ = none
    ∧ ∀ fs2 fc2 env2,
        (prepareForReading (prepareForReading s fs fc env).state fs2 fc2 env2).retval
          ≠ Result.INVALID_STATE := by
  have hkey : ∀ t : StreamState, t.dataMQ = none → ∀ fs2 fc2 env2,
      (prepareForReading t fs2 fc2 env2).retval ≠ Result.INVALID_STATE := by
    intro t ht fs2 fc2 env2
    unfold prepareForReading
    split_ifs <;> simp_all
  have hstate : (prepareForReading s fs fc env).state.dataMQ = none
      ∧ (prepareForReading s fs fc env).state.statusMQ = none := by
    revert hfail
    unfold prepareForReading
    split_ifs <;> simp_all
  exact ⟨hstate.1, hstate.2,
    fun fs2 fc2 env2 => hkey _ hstate.1 fs2 fc2 env2⟩

/-- Witness for C10: a fresh stream whose data queue fails to construct; the
retry with all steps succeeding is not rejected with INVALID_STATE. -/
theorem c10_failed_prepare_leaves_queues_unset_witness :
    (prepareForReading initialStream 4 2 ⟨false, true, true, true⟩).state.dataMQ
        = none
    ∧ (prepareForReading initialStream 4 2 ⟨false, true, true, true⟩).state.statusMQ
        = none
    ∧ (prepareForReading
        (prepareForReading initialStream 4 2 ⟨false, true, true, true⟩).state
        4 2 ⟨true, true, true, true⟩).retval ≠ Result.INVALID_STATE :=
  ⟨(c10_failed_prepare_leaves_queues_unset initialStream 4 2
      ⟨false, true, true, true⟩ (by decide) (by decide) (by decide)).1,
   (c10_failed_prepare_leaves_queues_unset initialStream 4 2
      ⟨false, true, true, true⟩ (by decide) (by decide) (by decide)).2.1,
   (c10_failed_prepare_leaves_queues_unset initialStream 4 2
      ⟨false, true, true, true⟩ (by decide) (by decide) (by decide)).2.2
     4 2 ⟨true, true, true, true⟩⟩

end StreamInHAL
